import Mathlib

/-!
Verification of the Lumix ffr device layer (ffr.cpp).

This file gives a shallow embedding of the handle pool, the DDS texture
decoder, the uniform de-duplication step, the program builder and a few
command-surface entry points, and proves the specified properties about
them.  Machine unsigned 32-bit arithmetic is modelled on Nat with an
explicit wrap where C would wrap; C int values that can be -1 are
modelled as Int.
-/

namespace FfrSpec

/-! ### Handle pool (ffr.cpp, template struct Pool)

The pool stores MAX_COUNT cells; a free cell has the index of the next
free cell written over its storage (the C code reinterprets the object
bytes as an int).  We model only that int view of each cell, which is
all the pool code ever reads or writes. -/

structure PoolState where
  values : List Int
  first_free : Int
deriving DecidableEq, Repr

namespace Pool

/-- Contents written by create: values i = i + 1 for i < N - 1 and
values (N-1) = -1 (ffr.cpp lines 111-119). -/
def createValues (N : Nat) : List Int :=
  (List.range N).map (fun i => if i = N - 1 then (-1 : Int) else (i : Int) + 1)

/-- Embedding of Pool::create. -/
def create (N : Nat) : PoolState :=
  { values := createValues N, first_free := 0 }

/-- Embedding of Pool::alloc: pop the free-list head, or return -1 when
the pool is full. -/
def alloc (s : PoolState) : Int × PoolState :=
  if s.first_free = -1 then (-1, s)
  else (s.first_free,
        { values := s.values, first_free := s.values.getD s.first_free.toNat (-1) })

/-- Embedding of Pool::dealloc: push idx onto the free-list head. -/
def dealloc (s : PoolState) (idx : Nat) : PoolState :=
  { values := s.values.set idx s.first_free, first_free := (idx : Int) }

/-- Embedding of Pool::isFull. -/
def isFull (s : PoolState) : Bool := s.first_free == -1

/-- Repeated alloc: the list of returned ids together with the final state. -/
def allocList (s : PoolState) : Nat → List Int × PoolState
  | 0 => ([], s)
  | k + 1 =>
    let p := alloc s
    let q := allocList p.2 k
    (p.1 :: q.1, q.2)

end Pool

/-- The free list of a pool, as the list of free slot indices reachable
from first_free: the head is first_free, each node stores the next index
and the last stores -1. -/
def chain (values : List Int) : Int → List Nat → Prop
  | ff, [] => ff = -1
  | ff, a :: rest =>
      ff = (a : Int) ∧ a < values.length ∧ chain values (values.getD a (-1)) rest

theorem chain_nil {values : List Int} {ff : Int} (h : chain values ff []) : ff = -1 := h

theorem getD_set_self {α : Type _} {l : List α} {i : Nat} {x d : α} (h : i < l.length) :
    (l.set i x).getD i d = x := by
  simp [List.getD_eq_getElem?_getD, List.getElem?_set_self, h]

theorem getD_set_ne {α : Type _} {l : List α} {i j : Nat} {x d : α} (h : i ≠ j) :
    (l.set i x).getD j d = l.getD j d := by
  simp [List.getD_eq_getElem?_getD, List.getElem?_set_ne h]

/-- Writing a cell that is not on the free list does not disturb the chain. -/
theorem chain_set_not_mem {values : List Int} {fl : List Nat} {i : Nat} {x : Int}
    (hi : i ∉ fl) : ∀ {ff : Int}, chain values ff fl → chain (values.set i x) ff fl := by
  induction fl with
  | nil => intro ff h; exact h
  | cons a rest ih =>
    intro ff h
    obtain ⟨h1, h2, h3⟩ := h
    have hne : i ≠ a := fun e => hi (e ▸ List.mem_cons_self a rest)
    refine ⟨h1, by simpa using h2, ?_⟩
    rw [getD_set_ne hne]
    exact ih (fun hm => hi (List.mem_cons_of_mem _ hm)) h3

theorem alloc_of_chain {s : PoolState} {a : Nat} {fl : List Nat}
    (h : chain s.values s.first_free (a :: fl)) :
    Pool.alloc s = ((a : Int),
      { values := s.values, first_free := s.values.getD a (-1) }) ∧
    chain s.values (s.values.getD a (-1)) fl := by
  obtain ⟨hff, _, hch⟩ := h
  have hne : s.first_free ≠ -1 := by rw [hff]; omega
  have htoNat : s.first_free.toNat = a := by rw [hff]; exact Int.toNat_natCast a
  constructor
  · simp [Pool.alloc, hne, hff, htoNat]
  · exact hch

theorem allocList_of_chain {fl : List Nat} :
    ∀ (k : Nat) (s : PoolState), chain s.values s.first_free fl → k ≤ fl.length →
      (Pool.allocList s k).1 = (fl.take k).map (fun (j : Nat) => (j : Int)) ∧
      (Pool.allocList s k).2.values = s.values ∧
      chain s.values (Pool.allocList s k).2.first_free (fl.drop k) := by
  induction fl with
  | nil =>
    intro k s h hk
    have hk0 : k = 0 := by simpa using hk
    subst hk0
    exact ⟨rfl, rfl, h⟩
  | cons a rest ih =>
    intro k s h hk
    match k with
    | 0 => exact ⟨rfl, rfl, h⟩
    | k + 1 =>
      obtain ⟨halloc, hch⟩ := alloc_of_chain h
      have hk' : k ≤ rest.length := by simpa using hk
      obtain ⟨ih1, ih2, ih3⟩ :=
        ih k { values := s.values, first_free := s.values.getD a (-1) } hch hk'
      have hunfold : Pool.allocList s (k + 1)
          = ((a : Int) ::
              (Pool.allocList { values := s.values, first_free := s.values.getD a (-1) } k).1,
             (Pool.allocList { values := s.values, first_free := s.values.getD a (-1) } k).2) := by
        simp [Pool.allocList, halloc]
      rw [hunfold]
      refine ⟨?_, ?_, ?_⟩
      · simp only [List.take_succ_cons, List.map_cons]
        rw [ih1]
      · exact ih2
      · simpa using ih3

theorem createValues_length (N : Nat) : (Pool.createValues N).length = N := by
  simp [Pool.createValues]

theorem createValues_getD {N j : Nat} (h : j < N) :
    (Pool.createValues N).getD j (-1) =
      if j = N - 1 then (-1 : Int) else (j : Int) + 1 := by
  simp [Pool.createValues, List.getD_eq_getElem?_getD, List.getElem?_map,
        List.getElem?_range, h]

/-- The fresh pool links slot k to k+1 and the last slot to -1, so the
free list from k is k, k+1, ..., N-1. -/
theorem chain_createValues (N : Nat) :
    ∀ (m k : Nat), k + m = N → 0 < m →
      chain (Pool.createValues N) (k : Int) (List.range' k m) := by
  intro m
  induction m with
  | zero => intro k _ hm; omega
  | succ m ih =>
    intro k hk _
    have hkN : k < N := by omega
    rw [List.range'_succ]
    refine ⟨rfl, by simpa [createValues_length] using hkN, ?_⟩
    rw [createValues_getD hkN]
    by_cases hlast : k = N - 1
    · have hm0 : m = 0 := by omega
      subst hm0
      simp [hlast, chain]
    · have hm0 : 0 < m := by omega
      have : ((k : Int) + 1) = ((k + 1 : Nat) : Int) := by push_cast; ring
      rw [if_neg hlast, this]
      exact ih (k + 1) (by omega) hm0

theorem chain_create {N : Nat} (hN : 0 < N) :
    chain (Pool.create N).values (Pool.create N).first_free (List.range N) := by
  have := chain_createValues N N 0 (by omega) hN
  rw [List.range_eq_range']
  exact this

/-! ### Sequences of pool operations

To state the capacity invariant we run an arbitrary sequence of
alloc/dealloc operations against a fresh pool, tracking as ghost state
the list of live indices (returned by alloc and not yet passed to
dealloc).  A trace is valid when dealloc is only applied to a live
index, which is the calling contract of the pool (spec section 4.1:
handle validity is caller-enforced). -/

inductive PoolOp where
  | alloc : PoolOp
  | dealloc : Nat → PoolOp
deriving DecidableEq, Repr

structure RunState where
  pool : PoolState
  live : List Nat
deriving DecidableEq, Repr

def step (s : RunState) : PoolOp → RunState
  | .alloc =>
    let p := Pool.alloc s.pool
    if p.1 = -1 then { pool := p.2, live := s.live }
    else { pool := p.2, live := p.1.toNat :: s.live }
  | .dealloc i => { pool := Pool.dealloc s.pool i, live := s.live.erase i }

def initRun (N : Nat) : RunState := { pool := Pool.create N, live := [] }

def runOps (N : Nat) (ops : List PoolOp) : RunState := ops.foldl step (initRun N)

/-- Validity of a trace from a given run state: dealloc is only applied
to currently live indices. -/
def validFrom (s : RunState) : List PoolOp → Bool
  | [] => true
  | .alloc :: rest => validFrom (step s .alloc) rest
  | .dealloc i :: rest => s.live.contains i && validFrom (step s (.dealloc i)) rest

/-- Run-state invariant: the pool cells form a well-shaped free list of
indices below N, disjoint from the live list, and the live list is a
duplicate-free list of indices below N. -/
def Inv (N : Nat) (s : RunState) : Prop :=
  s.pool.values.length = N ∧
  s.live.Nodup ∧ (∀ j ∈ s.live, j < N) ∧
  ∃ fl : List Nat,
    chain s.pool.values s.pool.first_free fl ∧ fl.Nodup ∧
    (∀ j ∈ fl, j < N) ∧ (∀ j ∈ fl, j ∉ s.live)

theorem inv_init {N : Nat} (hN : 0 < N) : Inv N (initRun N) := by
  refine ⟨createValues_length N, List.nodup_nil, ?_, List.range N,
          chain_create hN, List.nodup_range N, ?_, ?_⟩
  · intro j hj
    simp [initRun] at hj
  · intro j hj
    exact List.mem_range.mp hj
  · intro j _ hm
    simp [initRun] at hm

theorem inv_step_alloc {N : Nat} {s : RunState} (h : Inv N s) : Inv N (step s .alloc) := by
  obtain ⟨hlen, hnd, hlt, fl, hch, hflnd, hfllt, hdisj⟩ := h
  match fl, hch with
  | [], hch =>
    have hff : s.pool.first_free = -1 := chain_nil hch
    have : step s .alloc = s := by
      simp [step, Pool.alloc, hff]
    rw [this]
    exact ⟨hlen, hnd, hlt, [], hch, hflnd, hfllt, hdisj⟩
  | a :: rest, hch =>
    obtain ⟨halloc, hch'⟩ := alloc_of_chain hch
    have hne : ¬((a : Int) = -1) := by omega
    have hstep : step s .alloc =
        { pool := { values := s.pool.values, first_free := s.pool.values.getD a (-1) },
          live := a :: s.live } := by
      simp [step, halloc, hne]
    rw [hstep]
    refine ⟨hlen, ?_, ?_, rest, hch', hflnd.of_cons, ?_, ?_⟩
    · exact List.nodup_cons.mpr ⟨hdisj a (List.mem_cons_self a rest), hnd⟩
    · intro j hj
      rcases List.mem_cons.mp hj with hj | hj
      · exact hj ▸ hfllt a (List.mem_cons_self a rest)
      · exact hlt j hj
    · intro j hj
      exact hfllt j (List.mem_cons_of_mem a hj)
    · intro j hj
      have hja : j ≠ a := by
        intro e
        exact (List.nodup_cons.mp hflnd).1 (e ▸ hj)
      intro hm
      rcases List.mem_cons.mp hm with hm | hm
      · exact hja hm
      · exact hdisj j (List.mem_cons_of_mem a hj) hm

theorem inv_step_dealloc {N : Nat} {s : RunState} {i : Nat} (h : Inv N s)
    (hi : i ∈ s.live) : Inv N (step s (.dealloc i)) := by
  obtain ⟨hlen, hnd, hlt, fl, hch, hflnd, hfllt, hdisj⟩ := h
  have hiN : i < N := hlt i hi
  have hinotfl : i ∉ fl := fun hm => hdisj i hm hi
  have hilen : i < s.pool.values.length := by rw [hlen]; exact hiN
  have hstep : step s (.dealloc i)
      = { pool := { values := s.pool.values.set i s.pool.first_free,
                    first_free := (i : Int) },
          live := s.live.erase i } := rfl
  rw [hstep]
  refine ⟨by simp [hlen], hnd.erase i, ?_, i :: fl, ?_, ?_, ?_, ?_⟩
  · intro j hj
    exact hlt j (List.mem_of_mem_erase hj)
  · refine ⟨rfl, by simpa using hilen, ?_⟩
    rw [getD_set_self hilen]
    exact chain_set_not_mem hinotfl hch
  · exact List.nodup_cons.mpr ⟨hinotfl, hflnd⟩
  · intro j hj
    rcases List.mem_cons.mp hj with hj | hj
    · omega
    · exact hfllt j hj
  · intro j hj hm
    rcases List.mem_cons.mp hj with hj | hj
    · subst hj
      exact (hnd.mem_erase_iff.mp hm).1 rfl
    · exact hdisj j hj (List.mem_of_mem_erase hm)

theorem inv_run {N : Nat} : ∀ (ops : List PoolOp) (s : RunState), Inv N s →
    validFrom s ops = true → Inv N (ops.foldl step s) := by
  intro ops
  induction ops with
  | nil => intro s h _; exact h
  | cons op rest ih =>
    intro s h hv
    match op with
    | .alloc =>
      exact ih (step s .alloc) (inv_step_alloc h) (by simpa [validFrom] using hv)
    | .dealloc i =>
      have hv' := by simpa [validFrom, Bool.and_eq_true] using hv
      exact ih (step s (.dealloc i)) (inv_step_dealloc h (by simpa using hv'.1)) hv'.2

theorem nodup_length_le {N : Nat} {l : List Nat} (hnd : l.Nodup) (hlt : ∀ j ∈ l, j < N) :
    l.length ≤ N := by
  have hsub : l.toFinset ⊆ Finset.range N := by
    intro j hj
    exact Finset.mem_range.mpr (hlt j (List.mem_toFinset.mp hj))
  calc l.length = l.toFinset.card := (List.toFinset_card_of_nodup hnd).symm
    _ ≤ (Finset.range N).card := Finset.card_le_card hsub
    _ = N := Finset.card_range N

/-- Bridge between the ghost run and bare repeated allocation: the pool
component of a run consisting only of allocs is the pool produced by
Pool.allocList. -/
theorem runOps_replicate_alloc_pool :
    ∀ (k : Nat) (p : PoolState) (lv : List Nat),
      ((List.replicate k PoolOp.alloc).foldl step { pool := p, live := lv }).pool
        = (Pool.allocList p k).2 := by
  intro k
  induction k with
  | zero => intro p lv; rfl
  | succ k ih =>
    intro p lv
    rw [List.replicate_succ, List.foldl_cons]
    show ((List.replicate k PoolOp.alloc).foldl step (step { pool := p, live := lv } .alloc)).pool
        = (Pool.allocList (Pool.alloc p).2 k).2
    by_cases hfull : (Pool.alloc p).1 = -1
    · rw [show step { pool := p, live := lv } .alloc
            = { pool := (Pool.alloc p).2, live := lv } from by simp [step, hfull]]
      exact ih (Pool.alloc p).2 lv
    · rw [show step { pool := p, live := lv } .alloc
            = { pool := (Pool.alloc p).2, live := (Pool.alloc p).1.toNat :: lv } from by
          simp [step, hfull]]
      exact ih (Pool.alloc p).2 ((Pool.alloc p).1.toNat :: lv)

/-- C1: for every valid sequence of alloc/dealloc operations on a pool of
capacity N, the number of simultaneously live indices never exceeds N;
and after N consecutive allocs from a fresh pool with no intervening
dealloc, the next alloc returns the invalid sentinel -1. -/
theorem pool_capacity_invariant (N : Nat) (hN : 0 < N) :
    (∀ ops : List PoolOp, validFrom (initRun N) ops = true →
      (runOps N ops).live.length ≤ N) ∧
    (Pool.alloc (runOps N (List.replicate N PoolOp.alloc)).pool).1 = -1 := by
  constructor
  · intro ops hv
    obtain ⟨_, hnd, hlt, _⟩ := inv_run ops (initRun N) (inv_init hN) hv
    exact nodup_length_le hnd hlt
  · have hbridge : (runOps N (List.replicate N PoolOp.alloc)).pool
        = (Pool.allocList (Pool.create N) N).2 :=
      runOps_replicate_alloc_pool N (Pool.create N) []
    obtain ⟨_, _, hch⟩ := allocList_of_chain N (Pool.create N) (chain_create hN)
      (by simp)
    rw [hbridge]
    have hff : (Pool.allocList (Pool.create N) N).2.first_free = -1 := by
      have hdrop : List.drop N (List.range N) = [] := by simp
      rw [hdrop] at hch
      exact chain_nil hch
    simp [Pool.alloc, hff]

/-- Witness for C1 at capacity 2 with a concrete valid trace. -/
theorem pool_capacity_invariant_witness :
    (runOps 2 [PoolOp.alloc, PoolOp.alloc, PoolOp.dealloc 0, PoolOp.alloc]).live.length ≤ 2 ∧
    (Pool.alloc (runOps 2 (List.replicate 2 PoolOp.alloc)).pool).1 = -1 :=
  ⟨(pool_capacity_invariant 2 (by decide)).1
      [PoolOp.alloc, PoolOp.alloc, PoolOp.dealloc 0, PoolOp.alloc] (by decide),
   (pool_capacity_invariant 2 (by decide)).2⟩

/-- C7: the free list is LIFO: for any pool state, an index returned by
alloc that is immediately deallocated is returned again by the next
alloc. -/
theorem pool_dealloc_alloc_lifo (s s' : PoolState) (i : Nat)
    (h : Pool.alloc s = ((i : Int), s')) :
    (Pool.alloc (Pool.dealloc s' i)).1 = (i : Int) := by
  have hne : ¬(((i : Nat) : Int) = -1) := by omega
  simp [Pool.alloc, Pool.dealloc, hne]

/-- Witness for C7: on a fresh pool of capacity 2, alloc returns 0;
dealloc 0 followed by alloc returns 0 again. -/
theorem pool_dealloc_alloc_lifo_witness :
    (Pool.alloc (Pool.dealloc (Pool.alloc (Pool.create 2)).2 0)).1 = ((0 : Nat) : Int) :=
  pool_dealloc_alloc_lifo (Pool.create 2) (Pool.alloc (Pool.create 2)).2 0 (by decide)

/-- C10: on a freshly created pool of capacity N, the first k allocations
return the indices 0, 1, ..., k-1 in ascending order. -/
theorem fresh_pool_alloc_ascending (N k : Nat) (hN : 0 < N) (hk : k ≤ N) :
    (Pool.allocList (Pool.create N) k).1 = (List.range k).map (fun (j : Nat) => (j : Int)) := by
  obtain ⟨h1, _, _⟩ := allocList_of_chain k (Pool.create N) (chain_create hN) (by simpa)
  rw [h1, List.take_range, Nat.min_eq_left hk]

/-- Witness for C10 at capacity 4, allocating 3 indices. -/
theorem fresh_pool_alloc_ascending_witness :
    (Pool.allocList (Pool.create 4) 3).1
      = (List.range 3).map (fun (j : Nat) => (j : Int)) :=
  fresh_pool_alloc_ascending 4 3 (by decide) (by decide)

/-! ### Events

Entry points are modelled as functions that return the list of observable
actions they perform, in order: the thread-affinity assertion, reads from
the input blob, error-log lines and native GL calls.  The C functions
mutate global GL state through the native calls; the trace captures
exactly which native calls are made and with which arguments. -/

inductive GLCall where
  | genTextures
  | deleteTextures (tex : Nat)
  | bindTexture (target tex : Nat)
  | compressedTexImage2D (target level ifmt w h size : Nat)
  | texImage2D (target level ifmt w h efmt ty : Nat)
  | texParameteri (target pname param : Nat)
  | pixelStorei (pname param : Nat)
  | useProgram (prg : Nat)
  | uniformMatrix4fv (loc : Int) (count : Nat)
  | uniformMatrix4x3fv (loc : Int) (count : Nat)
  | uniformMatrix3x4fv (loc : Int) (count : Nat)
  | uniform4fv (loc : Int) (count : Nat)
  | uniform3fv (loc : Int) (count : Nat)
  | uniform2fv (loc : Int) (count : Nat)
  | uniform1fv (loc : Int) (count : Nat)
  | uniform1i (loc : Int)
  | createProgram
  | createShader (ty : Nat)
  | shaderSource (shd count : Nat)
  | compileShader (shd : Nat)
  | getShaderiv (shd pname : Nat)
  | getShaderInfoLog (shd : Nat)
  | deleteShader (shd : Nat)
  | attachShader (prg shd : Nat)
  | linkProgram (prg : Nat)
  | getProgramiv (prg pname : Nat)
  | getProgramInfoLog (prg : Nat)
  | deleteProgram (prg : Nat)
  | getActiveUniform (prg i : Nat)
  | getUniformLocation (prg : Nat)
  | viewport (x y w h : Nat)
  | scissor (x y w h : Nat)
  | enable (cap : Nat)
  | disable (cap : Nat)
  | blendFunc (sfactor dfactor : Nat)
  | drawArrays (mode first count : Nat)
  | drawElements (mode count ty offsetBytes : Nat)
deriving DecidableEq, Repr

inductive Event where
  | checkThread
  | blobRead (size : Nat)
  | logError (msg : String)
  | glCall (c : GLCall)
deriving DecidableEq, Repr

/-- An event is a native GL call (as opposed to the thread assertion, a
blob read or a log line). -/
def Event.isGL : Event → Bool
  | Event.glCall _ => true
  | _ => false

/-! ### GL enumeration constants used by the embedded code. -/

def GL_ZERO : Nat := 0
def GL_COMPRESSED_RGBA_S3TC_DXT1_EXT : Nat := 0x83F1
def GL_COMPRESSED_RGBA_S3TC_DXT3_EXT : Nat := 0x83F2
def GL_COMPRESSED_RGBA_S3TC_DXT5_EXT : Nat := 0x83F3
def GL_COMPRESSED_SRGB_ALPHA_S3TC_DXT1_EXT : Nat := 0x8C4D
def GL_COMPRESSED_SRGB_ALPHA_S3TC_DXT3_EXT : Nat := 0x8C4E
def GL_COMPRESSED_SRGB_ALPHA_S3TC_DXT5_EXT : Nat := 0x8C4F
def GL_COMPRESSED_RED_RGTC1 : Nat := 0x8DBB
def GL_COMPRESSED_RG_RGTC2 : Nat := 0x8DBD
def GL_RGBA8 : Nat := 0x8058
def GL_SRGB8_ALPHA8 : Nat := 0x8C43
def GL_RGB8 : Nat := 0x8051
def GL_SRGB8 : Nat := 0x8C41
def GL_RGB5_A1 : Nat := 0x8057
def GL_RGB5 : Nat := 0x8050
def GL_BGRA : Nat := 0x80E1
def GL_BGR : Nat := 0x80E0
def GL_RGB : Nat := 0x1907
def GL_UNSIGNED_BYTE : Nat := 0x1401
def GL_UNSIGNED_SHORT : Nat := 0x1403
def GL_UNSIGNED_SHORT_1_5_5_5_REV : Nat := 0x8366
def GL_UNSIGNED_SHORT_5_6_5 : Nat := 0x8363
def GL_TEXTURE_2D : Nat := 0x0DE1
def GL_TEXTURE_CUBE_MAP : Nat := 0x8513
def GL_TEXTURE_CUBE_MAP_POSITIVE_X : Nat := 0x8515
def GL_TEXTURE_MIN_FILTER : Nat := 0x2801
def GL_TEXTURE_MAG_FILTER : Nat := 0x2800
def GL_LINEAR : Nat := 0x2601
def GL_LINEAR_MIPMAP_LINEAR : Nat := 0x2703
def GL_TEXTURE_MAX_LEVEL : Nat := 0x813D
def GL_UNPACK_SWAP_BYTES : Nat := 0x0CF0
def GL_TRUE : Nat := 1
def GL_FALSE : Nat := 0

/-- Modelled from the spec: the SRGB texture-creation flag bit; the enum
TextureFlags lives in ffr.h, which is not part of the sources, and the
code only tests it as a single flag bit in the flags word. -/
def TextureFlags_SRGB : Nat := 1

/-- Modelled from the spec: the invalid sentinel shared by the handle
types declared in ffr.h (the code compares a raw handle value against
0xffFFffFF in setFramebuffer; each handle category has a distinguished
invalid sentinel per spec section 3). -/
def INVALID_HANDLE : Nat := 0xffffffff

/-- Wrap to C unsigned 32-bit arithmetic. -/
def u32 (n : Nat) : Nat := n % 4294967296

namespace DDS

def DDS_MAGIC : Nat := 0x20534444
def DDSD_CAPS : Nat := 0x00000001
def DDSD_HEIGHT : Nat := 0x00000002
def DDSD_WIDTH : Nat := 0x00000004
def DDSD_PITCH : Nat := 0x00000008
def DDSD_PIXELFORMAT : Nat := 0x00001000
def DDSD_MIPMAPCOUNT : Nat := 0x00020000
def DDSD_LINEARSIZE : Nat := 0x00080000
def DDSD_DEPTH : Nat := 0x00800000
def DDPF_ALPHAPIXELS : Nat := 0x00000001
def DDPF_FOURCC : Nat := 0x00000004
def DDPF_INDEXED : Nat := 0x00000020
def DDPF_RGB : Nat := 0x00000040
def DDSCAPS_TEXTURE : Nat := 0x00001000
def DDSCAPS2_CUBEMAP : Nat := 0x00000200
def D3DFMT_ATI1 : Nat := 0x31495441
def D3DFMT_ATI2 : Nat := 0x32495441
def D3DFMT_DXT1 : Nat := 0x31545844
def D3DFMT_DXT3 : Nat := 0x33545844
def D3DFMT_DXT5 : Nat := 0x35545844

structure PixelFormat where
  dwSize : Nat
  dwFlags : Nat
  dwFourCC : Nat
  dwRGBBitCount : Nat
  dwRBitMask : Nat
  dwGBitMask : Nat
  dwBBitMask : Nat
  dwAlphaBitMask : Nat
deriving DecidableEq, Repr

structure Caps2 where
  dwCaps1 : Nat
  dwCaps2 : Nat
  dwDDSX : Nat
  dwReserved : Nat
deriving DecidableEq, Repr

structure Header where
  dwMagic : Nat
  dwSize : Nat
  dwFlags : Nat
  dwHeight : Nat
  dwWidth : Nat
  dwPitchOrLinearSize : Nat
  dwDepth : Nat
  dwMipMapCount : Nat
  pixelFormat : PixelFormat
  caps2 : Caps2
deriving DecidableEq, Repr

structure LoadInfo where
  compressed : Bool
  swap : Bool
  palette : Bool
  blockBytes : Nat
  internalFormat : Nat
  internalSRGBFormat : Nat
  externalFormat : Nat
  type : Nat
deriving DecidableEq, Repr

/-- Embedding of DDS::sizeDXTC; all arithmetic is C unsigned 32-bit. -/
def sizeDXTC (w h format : Nat) : Nat :=
  let is_dxt1 := format == GL_COMPRESSED_RGBA_S3TC_DXT1_EXT ||
                 format == GL_COMPRESSED_SRGB_ALPHA_S3TC_DXT1_EXT
  let is_ati := format == GL_COMPRESSED_RED_RGTC1
  u32 (u32 (u32 (w + 3) / 4 * (u32 (h + 3) / 4)) * (if is_dxt1 || is_ati then 8 else 16))

def isDXT1 (pf : PixelFormat) : Bool :=
  (pf.dwFlags &&& DDPF_FOURCC != 0) && (pf.dwFourCC == D3DFMT_DXT1)

def isATI1 (pf : PixelFormat) : Bool :=
  (pf.dwFlags &&& DDPF_FOURCC != 0) && (pf.dwFourCC == D3DFMT_ATI1)

def isATI2 (pf : PixelFormat) : Bool :=
  (pf.dwFlags &&& DDPF_FOURCC != 0) && (pf.dwFourCC == D3DFMT_ATI2)

def isDXT3 (pf : PixelFormat) : Bool :=
  (pf.dwFlags &&& DDPF_FOURCC != 0) && (pf.dwFourCC == D3DFMT_DXT3)

def isDXT5 (pf : PixelFormat) : Bool :=
  (pf.dwFlags &&& DDPF_FOURCC != 0) && (pf.dwFourCC == D3DFMT_DXT5)

def isBGRA8 (pf : PixelFormat) : Bool :=
  (pf.dwFlags &&& DDPF_RGB != 0) &&
  (pf.dwFlags &&& DDPF_ALPHAPIXELS != 0) &&
  (pf.dwRGBBitCount == 32) &&
  (pf.dwRBitMask == 0xff0000) &&
  (pf.dwGBitMask == 0xff00) &&
  (pf.dwBBitMask == 0xff) &&
  (pf.dwAlphaBitMask == 0xff000000)

/-- Embedding of DDS::isBGR8 as written in the source: the first two
conjuncts test the same alpha-pixels bit both nonzero and zero. -/
def isBGR8 (pf : PixelFormat) : Bool :=
  (pf.dwFlags &&& DDPF_ALPHAPIXELS != 0) &&
  (pf.dwFlags &&& DDPF_ALPHAPIXELS == 0) &&
  (pf.dwRGBBitCount == 24) &&
  (pf.dwRBitMask == 0xff0000) &&
  (pf.dwGBitMask == 0xff00) &&
  (pf.dwBBitMask == 0xff)

def isBGR5A1 (pf : PixelFormat) : Bool :=
  (pf.dwFlags &&& DDPF_RGB != 0) &&
  (pf.dwFlags &&& DDPF_ALPHAPIXELS != 0) &&
  (pf.dwRGBBitCount == 16) &&
  (pf.dwRBitMask == 0x00007c00) &&
  (pf.dwGBitMask == 0x000003e0) &&
  (pf.dwBBitMask == 0x0000001f) &&
  (pf.dwAlphaBitMask == 0x00008000)

def isBGR565 (pf : PixelFormat) : Bool :=
  (pf.dwFlags &&& DDPF_RGB != 0) &&
  (pf.dwFlags &&& DDPF_ALPHAPIXELS == 0) &&
  (pf.dwRGBBitCount == 16) &&
  (pf.dwRBitMask == 0x0000f800) &&
  (pf.dwGBitMask == 0x000007e0) &&
  (pf.dwBBitMask == 0x0000001f)

def isINDEX8 (pf : PixelFormat) : Bool :=
  (pf.dwFlags &&& DDPF_INDEXED != 0) && (pf.dwRGBBitCount == 8)

def loadInfoDXT1 : LoadInfo :=
  ⟨true, false, false, 8, GL_COMPRESSED_RGBA_S3TC_DXT1_EXT,
   GL_COMPRESSED_SRGB_ALPHA_S3TC_DXT1_EXT, 0, 0⟩
def loadInfoDXT3 : LoadInfo :=
  ⟨true, false, false, 16, GL_COMPRESSED_RGBA_S3TC_DXT3_EXT,
   GL_COMPRESSED_SRGB_ALPHA_S3TC_DXT3_EXT, 0, 0⟩
def loadInfoDXT5 : LoadInfo :=
  ⟨true, false, false, 16, GL_COMPRESSED_RGBA_S3TC_DXT5_EXT,
   GL_COMPRESSED_SRGB_ALPHA_S3TC_DXT5_EXT, 0, 0⟩
def loadInfoATI1 : LoadInfo :=
  ⟨true, false, false, 8, GL_COMPRESSED_RED_RGTC1, GL_ZERO, 0, 0⟩
def loadInfoATI2 : LoadInfo :=
  ⟨true, false, false, 16, GL_COMPRESSED_RG_RGTC2, GL_ZERO, 0, 0⟩
def loadInfoBGRA8 : LoadInfo :=
  ⟨false, false, false, 4, GL_RGBA8, GL_SRGB8_ALPHA8, GL_BGRA, GL_UNSIGNED_BYTE⟩
def loadInfoBGR8 : LoadInfo :=
  ⟨false, false, false, 3, GL_RGB8, GL_SRGB8, GL_BGR, GL_UNSIGNED_BYTE⟩
def loadInfoBGR5A1 : LoadInfo :=
  ⟨false, true, false, 2, GL_RGB5_A1, GL_ZERO, GL_BGRA, GL_UNSIGNED_SHORT_1_5_5_5_REV⟩
def loadInfoBGR565 : LoadInfo :=
  ⟨false, true, false, 2, GL_RGB5, GL_ZERO, GL_RGB, GL_UNSIGNED_SHORT_5_6_5⟩
def loadInfoIndex8 : LoadInfo :=
  ⟨false, false, true, 1, GL_RGB8, GL_SRGB8, GL_BGRA, GL_UNSIGNED_BYTE⟩

/-- The ordered format classification chain from loadTexture
(ffr.cpp lines 1010-1042): first matching predicate wins, no match
rejects. -/
def classify (pf : PixelFormat) : Option LoadInfo :=
  if isDXT1 pf then some loadInfoDXT1
  else if isDXT3 pf then some loadInfoDXT3
  else if isDXT5 pf then some loadInfoDXT5
  else if isATI1 pf then some loadInfoATI1
  else if isATI2 pf then some loadInfoATI2
  else if isBGRA8 pf then some loadInfoBGRA8
  else if isBGR8 pf then some loadInfoBGR8
  else if isBGR5A1 pf then some loadInfoBGR5A1
  else if isBGR565 pf then some loadInfoBGR565
  else if isINDEX8 pf then some loadInfoIndex8
  else none

end DDS

/-! ### loadTexture (ffr.cpp lines 993-1145) -/

/-- Resolved internal format: the sRGB variant when the SRGB flag is
passed, the plain one otherwise (ffr.cpp line 1053). -/
def resolvedFormat (li : DDS.LoadInfo) (flags : Nat) : Nat :=
  if flags &&& TextureFlags_SRGB != 0 then li.internalSRGBFormat else li.internalFormat

/-- Mip count: from the header when the mip-count flag is present, else 1
(ffr.cpp line 1055). -/
def mipsOf (hdr : DDS.Header) : Nat :=
  if hdr.dwFlags &&& DDS.DDSD_MIPMAPCOUNT != 0 then hdr.dwMipMapCount else 1

/-- Cubemap flag from the capability word (ffr.cpp line 1044). -/
def cubemapOf (hdr : DDS.Header) : Bool :=
  hdr.caps2.dwCaps2 &&& DDS.DDSCAPS2_CUBEMAP != 0

/-- Number of faces iterated by the side loop (ffr.cpp line 1056). -/
def sidesOf (hdr : DDS.Header) : Nat :=
  if cubemapOf hdr then 6 else 1

/-- The compressed mip loop (ffr.cpp lines 1073-1082): per level, read
size bytes, upload them, set the two filter parameters, then halve the
dimensions (floor, clamped at 1) and recompute the size. -/
def compressedMips (tgt ttgt ifmt : Nat) : Nat → Nat → Nat → Nat → Nat → List Event
  | 0, _, _, _, _ => []
  | n + 1, ix, w, h, size =>
      Event.blobRead size ::
      Event.glCall (GLCall.compressedTexImage2D tgt ix ifmt w h size) ::
      Event.glCall (GLCall.texParameteri ttgt GL_TEXTURE_MIN_FILTER GL_LINEAR_MIPMAP_LINEAR) ::
      Event.glCall (GLCall.texParameteri ttgt GL_TEXTURE_MAG_FILTER GL_LINEAR) ::
      compressedMips tgt ttgt ifmt n (ix + 1) (max 1 (w / 2)) (max 1 (h / 2))
        (DDS.sizeDXTC (max 1 (w / 2)) (max 1 (h / 2)) ifmt)

/-- The uncompressed and palette mip loops (ffr.cpp lines 1100-1110 and
1119-1126): per level, read size bytes, upload via glTexImage2D, halve
the dimensions and recompute size = w * h * blockBytes in 32-bit
arithmetic. -/
def texImageMips (tgt ifmt efmt ty bb : Nat) : Nat → Nat → Nat → Nat → Nat → List Event
  | 0, _, _, _, _ => []
  | n + 1, ix, w, h, size =>
      Event.blobRead size ::
      Event.glCall (GLCall.texImage2D tgt ix ifmt w h efmt ty) ::
      texImageMips tgt ifmt efmt ty bb n (ix + 1) (max 1 (w / 2)) (max 1 (h / 2))
        (u32 (u32 (max 1 (w / 2) * max 1 (h / 2)) * bb))

/-- Body of the per-side loop of loadTexture (ffr.cpp lines 1056-1130). -/
def loadSide (hdr : DDS.Header) (li : DDS.LoadInfo) (ifmt : Nat) (is_cubemap : Bool)
    (mips texture side : Nat) : Bool × List Event :=
  let width := hdr.dwWidth
  let height := hdr.dwHeight
  let tgt := if is_cubemap then GL_TEXTURE_CUBE_MAP_POSITIVE_X + side else GL_TEXTURE_2D
  let ttgt := if is_cubemap then GL_TEXTURE_CUBE_MAP else GL_TEXTURE_2D
  let maxLevelEv :=
    Event.glCall (GLCall.texParameteri ttgt GL_TEXTURE_MAX_LEVEL (u32 (mips + 4294967295)))
  let ev0 := Event.glCall (GLCall.bindTexture ttgt texture)
  if li.compressed then
    let size := DDS.sizeDXTC width height ifmt
    if size != hdr.dwPitchOrLinearSize || hdr.dwFlags &&& DDS.DDSD_LINEARSIZE == 0 then
      (false, [ev0, Event.glCall (GLCall.deleteTextures texture)])
    else
      (true, ev0 :: (compressedMips tgt ttgt ifmt mips 0 width height size ++ [maxLevelEv]))
  else if li.palette then
    if hdr.dwFlags &&& DDS.DDSD_PITCH == 0 || hdr.pixelFormat.dwRGBBitCount != 8 then
      (false, [ev0, Event.glCall (GLCall.deleteTextures texture)])
    else
      let size := u32 (hdr.dwPitchOrLinearSize * height)
      if size != u32 (u32 (width * height) * li.blockBytes) then
        (false, [ev0, Event.glCall (GLCall.deleteTextures texture)])
      else
        (true, ev0 :: Event.blobRead 1024 ::
          (texImageMips tgt ifmt li.externalFormat li.type li.blockBytes mips 0 width height size
           ++ [maxLevelEv]))
  else
    let swapEvs :=
      if li.swap then [Event.glCall (GLCall.pixelStorei GL_UNPACK_SWAP_BYTES GL_TRUE)] else []
    let size := u32 (u32 (width * height) * li.blockBytes)
    (true, ev0 :: (swapEvs ++
      texImageMips tgt ifmt li.externalFormat li.type li.blockBytes mips 0 width height size ++
      [Event.glCall (GLCall.pixelStorei GL_UNPACK_SWAP_BYTES GL_FALSE), maxLevelEv]))

/-- The side loop: run loadSide for each face, stopping at the first
failure (the C code returns from inside the loop). -/
def loadSides (hdr : DDS.Header) (li : DDS.LoadInfo) (ifmt : Nat) (is_cubemap : Bool)
    (mips texture : Nat) : Nat → Nat → Bool × List Event
  | 0, _ => (true, [])
  | n + 1, side =>
    let r := loadSide hdr li ifmt is_cubemap mips texture side
    if r.1 then
      let rest := loadSides hdr li ifmt is_cubemap mips texture n (side + 1)
      (rest.1, r.2 ++ rest.2)
    else (false, r.2)

structure LoadResult where
  ok : Bool
  events : List Event
  tex : Option (Nat × Bool)
deriving DecidableEq, Repr

/-- Embedding of loadTexture.  Inputs are the parsed 128-byte header, the
flags word and the id produced by glGenTextures (an environment value; the
code rejects the load when it is 0).  The result carries the return value,
the event trace and the texture record written into the texture slot on
success. -/
def loadTexture (hdr : DDS.Header) (flags gen : Nat) : LoadResult :=
  if hdr.dwMagic != DDS.DDS_MAGIC || hdr.dwSize != 124 ||
     hdr.dwFlags &&& DDS.DDSD_PIXELFORMAT == 0 || hdr.dwFlags &&& DDS.DDSD_CAPS == 0 then
    { ok := false,
      events := [Event.checkThread, Event.blobRead 128,
                 Event.logError "Wrong dds format or corrupted dds."],
      tex := none }
  else
    match DDS.classify hdr.pixelFormat with
    | none => { ok := false, events := [Event.checkThread, Event.blobRead 128], tex := none }
    | some li =>
      let is_cubemap := cubemapOf hdr
      if gen == 0 then
        { ok := false,
          events := [Event.checkThread, Event.blobRead 128, Event.glCall GLCall.genTextures],
          tex := none }
      else
        let r := loadSides hdr li (resolvedFormat li flags) is_cubemap (mipsOf hdr) gen
                   (sidesOf hdr) 0
        { ok := r.1,
          events := Event.checkThread :: Event.blobRead 128 ::
                    Event.glCall GLCall.genTextures :: r.2,
          tex := if r.1 then some (gen, is_cubemap) else none }

/-- C2: a header whose magic differs from 0x20534444, or whose declared
size differs from 124, or which lacks the pixel-format-present or the
capabilities-present flag, makes loadTexture return false after only the
thread assertion, the 128-byte header read and a log line: no native GL
call is made and no texture object is created. -/
theorem loadTexture_header_validation (hdr : DDS.Header) (flags gen : Nat)
    (h : hdr.dwMagic ≠ DDS.DDS_MAGIC ∨ hdr.dwSize ≠ 124 ∨
         hdr.dwFlags &&& DDS.DDSD_PIXELFORMAT = 0 ∨ hdr.dwFlags &&& DDS.DDSD_CAPS = 0) :
    (loadTexture hdr flags gen).ok = false ∧
    (loadTexture hdr flags gen).events
      = [Event.checkThread, Event.blobRead 128,
         Event.logError "Wrong dds format or corrupted dds."] ∧
    (∀ e ∈ (loadTexture hdr flags gen).events, Event.isGL e = false) ∧
    (loadTexture hdr flags gen).tex = none := by
  have hcond : (hdr.dwMagic != DDS.DDS_MAGIC || hdr.dwSize != 124 ||
      hdr.dwFlags &&& DDS.DDSD_PIXELFORMAT == 0 || hdr.dwFlags &&& DDS.DDSD_CAPS == 0) = true := by
    simp only [Bool.or_eq_true, bne_iff_ne, beq_iff_eq]
    tauto
  rw [loadTexture, if_pos hcond]
  refine ⟨rfl, rfl, ?_, rfl⟩
  intro e he
  fin_cases he <;> rfl

/-- Witness for C2: a header with a corrupted magic number. -/
def hdrBadMagic : DDS.Header :=
  { dwMagic := 0x20534443, dwSize := 124,
    dwFlags := DDS.DDSD_CAPS ||| DDS.DDSD_HEIGHT ||| DDS.DDSD_WIDTH ||| DDS.DDSD_PIXELFORMAT,
    dwHeight := 4, dwWidth := 4, dwPitchOrLinearSize := 8, dwDepth := 0, dwMipMapCount := 0,
    pixelFormat := { dwSize := 32, dwFlags := DDS.DDPF_FOURCC, dwFourCC := DDS.D3DFMT_DXT1,
                     dwRGBBitCount := 0, dwRBitMask := 0, dwGBitMask := 0, dwBBitMask := 0,
                     dwAlphaBitMask := 0 },
    caps2 := { dwCaps1 := DDS.DDSCAPS_TEXTURE, dwCaps2 := 0, dwDDSX := 0, dwReserved := 0 } }

theorem loadTexture_header_validation_witness :
    (loadTexture hdrBadMagic 0 1).ok = false ∧
    (loadTexture hdrBadMagic 0 1).events
      = [Event.checkThread, Event.blobRead 128,
         Event.logError "Wrong dds format or corrupted dds."] ∧
    (∀ e ∈ (loadTexture hdrBadMagic 0 1).events, Event.isGL e = false) ∧
    (loadTexture hdrBadMagic 0 1).tex = none :=
  loadTexture_header_validation hdrBadMagic 0 1 (Or.inl (by decide))

/-- Pixel-format descriptor of an uncompressed 24-bit BGR file: RGB flag
set, alpha flag clear, 24-bit count, masks 0xff0000 / 0xff00 / 0xff. -/
def pfBGR8 : DDS.PixelFormat :=
  { dwSize := 32, dwFlags := DDS.DDPF_RGB, dwFourCC := 0, dwRGBBitCount := 24,
    dwRBitMask := 0xff0000, dwGBitMask := 0xff00, dwBBitMask := 0xff, dwAlphaBitMask := 0 }

/-- Well-formed header around pfBGR8 (pitch 12 = 4 * 3 bytes per row). -/
def hdrBGR8 : DDS.Header :=
  { dwMagic := DDS.DDS_MAGIC, dwSize := 124,
    dwFlags := DDS.DDSD_CAPS ||| DDS.DDSD_HEIGHT ||| DDS.DDSD_WIDTH ||| DDS.DDSD_PITCH |||
               DDS.DDSD_PIXELFORMAT,
    dwHeight := 4, dwWidth := 4, dwPitchOrLinearSize := 12, dwDepth := 0, dwMipMapCount := 0,
    pixelFormat := pfBGR8,
    caps2 := { dwCaps1 := DDS.DDSCAPS_TEXTURE, dwCaps2 := 0, dwDDSX := 0, dwReserved := 0 } }

/-- C5 (code bug): the isBGR8 predicate as written tests the alpha-pixels
bit both nonzero and zero, so it matches no pixel format at all; in
particular the canonical 24-bit BGR descriptor is not classified as BGR8
and the whole file is rejected by loadTexture, despite the unreachable
loadInfoBGR8 table entry. -/
theorem isBGR8_dead_predicate :
    (∀ pf : DDS.PixelFormat, DDS.isBGR8 pf = false) ∧
    DDS.isBGR8 pfBGR8 = false ∧
    DDS.classify pfBGR8 = none ∧
    (loadTexture hdrBGR8 0 1).ok = false := by
  refine ⟨?_, by decide, by decide, by decide⟩
  intro pf
  by_cases h : pf.dwFlags &&& DDS.DDPF_ALPHAPIXELS = 0 <;>
    simp [DDS.isBGR8, h]

/-! ### Mip-chain byte counts (C3) -/

/-- Compressed upload sizes of an event trace, in order. -/
def uploadSizes (evs : List Event) : List Nat :=
  evs.filterMap fun e =>
    match e with
    | Event.glCall (GLCall.compressedTexImage2D _ _ _ _ _ size) => some size
    | _ => none

/-- Blob read sizes of an event trace, in order. -/
def payloadReadSizes (evs : List Event) : List Nat :=
  evs.filterMap fun e =>
    match e with
    | Event.blobRead n => some n
    | _ => none

/-- Block size appearing in the per-level size formula, as a function of
the resolved internal format: 8 bytes for the two DXT1 variants and for
RGTC1, 16 for everything else. -/
def claimBlockBytes (ifmt : Nat) : Nat :=
  if ifmt == GL_COMPRESSED_RGBA_S3TC_DXT1_EXT ||
     ifmt == GL_COMPRESSED_SRGB_ALPHA_S3TC_DXT1_EXT ||
     ifmt == GL_COMPRESSED_RED_RGTC1 then 8 else 16

/-- Modelled from the spec (claim-side formula): per mip level the upload
is ((w+3)/4) * ((h+3)/4) * blockBytes bytes, computed in 32-bit unsigned
arithmetic as the code does, and the dimensions are halved (floor,
clamped below at 1) for the next level. -/
def claimMipChain (bb : Nat) : Nat → Nat → Nat → List Nat
  | 0, _, _ => []
  | n + 1, w, h =>
      u32 (u32 (u32 (w + 3) / 4 * (u32 (h + 3) / 4)) * bb) ::
      claimMipChain bb n (max 1 (w / 2)) (max 1 (h / 2))

theorem sizeDXTC_eq_claim (w h f : Nat) :
    DDS.sizeDXTC w h f
      = u32 (u32 (u32 (w + 3) / 4 * (u32 (h + 3) / 4)) * claimBlockBytes f) := by
  simp [DDS.sizeDXTC, claimBlockBytes, Bool.or_assoc]

theorem compressedMips_sizes (tgt ttgt f : Nat) :
    ∀ (n ix w h : Nat),
      uploadSizes (compressedMips tgt ttgt f n ix w h (DDS.sizeDXTC w h f))
        = claimMipChain (claimBlockBytes f) n w h ∧
      payloadReadSizes (compressedMips tgt ttgt f n ix w h (DDS.sizeDXTC w h f))
        = claimMipChain (claimBlockBytes f) n w h := by
  intro n
  induction n with
  | zero => intro ix w h; exact ⟨rfl, rfl⟩
  | succ n ih =>
    intro ix w h
    obtain ⟨ih1, ih2⟩ := ih (ix + 1) (max 1 (w / 2)) (max 1 (h / 2))
    constructor
    · simp only [compressedMips, uploadSizes, List.filterMap_cons, claimMipChain]
      rw [← sizeDXTC_eq_claim]
      exact congrArg _ ih1
    · simp only [compressedMips, payloadReadSizes, List.filterMap_cons, claimMipChain]
      rw [← sizeDXTC_eq_claim]
      exact congrArg _ ih2

theorem loadSide_compressed_sizes (hdr : DDS.Header) (li : DDS.LoadInfo) (f : Nat)
    (cm : Bool) (mips texture side : Nat)
    (hcomp : li.compressed = true)
    (hok : (loadSide hdr li f cm mips texture side).1 = true) :
    uploadSizes (loadSide hdr li f cm mips texture side).2
      = claimMipChain (claimBlockBytes f) mips hdr.dwWidth hdr.dwHeight ∧
    payloadReadSizes (loadSide hdr li f cm mips texture side).2
      = claimMipChain (claimBlockBytes f) mips hdr.dwWidth hdr.dwHeight := by
  unfold loadSide at hok ⊢
  rw [hcomp] at hok ⊢
  simp only [if_true] at hok ⊢
  by_cases hchk : (DDS.sizeDXTC hdr.dwWidth hdr.dwHeight f != hdr.dwPitchOrLinearSize ||
      hdr.dwFlags &&& DDS.DDSD_LINEARSIZE == 0) = true
  · rw [if_pos hchk] at hok
    simp at hok
  · rw [Bool.not_eq_true] at hchk
    rw [if_neg (by simp [hchk])] at hok ⊢
    obtain ⟨h1, h2⟩ := compressedMips_sizes
      (if cm = true then GL_TEXTURE_CUBE_MAP_POSITIVE_X + side else GL_TEXTURE_2D)
      (if cm = true then GL_TEXTURE_CUBE_MAP else GL_TEXTURE_2D)
      f mips 0 hdr.dwWidth hdr.dwHeight
    constructor
    · simp only [uploadSizes, List.filterMap_cons, List.filterMap_append] at h1 ⊢
      simpa using h1
    · simp only [payloadReadSizes, List.filterMap_cons, List.filterMap_append] at h2 ⊢
      simpa using h2

theorem loadSides_compressed_sizes (hdr : DDS.Header) (li : DDS.LoadInfo) (f : Nat)
    (cm : Bool) (mips texture : Nat) (hcomp : li.compressed = true) :
    ∀ (n side : Nat), (loadSides hdr li f cm mips texture n side).1 = true →
      uploadSizes (loadSides hdr li f cm mips texture n side).2
        = List.flatten (List.replicate n
            (claimMipChain (claimBlockBytes f) mips hdr.dwWidth hdr.dwHeight)) ∧
      payloadReadSizes (loadSides hdr li f cm mips texture n side).2
        = List.flatten (List.replicate n
            (claimMipChain (claimBlockBytes f) mips hdr.dwWidth hdr.dwHeight)) := by
  intro n
  induction n with
  | zero => intro side _; exact ⟨rfl, rfl⟩
  | succ n ih =>
    intro side hok
    unfold loadSides at hok ⊢
    by_cases hr : (loadSide hdr li f cm mips texture side).1 = true
    · rw [if_pos hr] at hok ⊢
      obtain ⟨hs1, hs2⟩ := loadSide_compressed_sizes hdr li f cm mips texture side hcomp hr
      obtain ⟨ih1, ih2⟩ := ih (side + 1) hok
      constructor
      · simp only [uploadSizes, List.filterMap_append] at hs1 ih1 ⊢
        rw [hs1, ih1, List.replicate_succ, List.flatten_cons]
      · simp only [payloadReadSizes, List.filterMap_append] at hs2 ih2 ⊢
        rw [hs2, ih2, List.replicate_succ, List.flatten_cons]
    · rw [if_neg hr] at hok
      simp at hok

theorem loadTexture_ok_shape (hdr : DDS.Header) (flags gen : Nat)
    (hok : (loadTexture hdr flags gen).ok = true) :
    ∃ li, DDS.classify hdr.pixelFormat = some li ∧
      (loadSides hdr li (resolvedFormat li flags) (cubemapOf hdr) (mipsOf hdr) gen
        (sidesOf hdr) 0).1 = true ∧
      (loadTexture hdr flags gen).events
        = Event.checkThread :: Event.blobRead 128 :: Event.glCall GLCall.genTextures ::
          (loadSides hdr li (resolvedFormat li flags) (cubemapOf hdr) (mipsOf hdr) gen
            (sidesOf hdr) 0).2 := by
  unfold loadTexture at hok ⊢
  split at hok
  next hbad => simp at hok
  next hbad =>
    split at hok
    next hcls => simp at hok
    next li hcls =>
      split at hok
      next hgen => simp at hok
      next hgen =>
        refine ⟨li, hcls, by simpa using hok, ?_⟩
        simp only [if_neg hbad, if_neg hgen]

set_option maxHeartbeats 1000000 in
/-- The five compressed table entries are the only classifications with
the compressed bit set. -/
theorem classify_compressed {pf : DDS.PixelFormat} {li : DDS.LoadInfo}
    (h : DDS.classify pf = some li) (hc : li.compressed = true) :
    li = DDS.loadInfoDXT1 ∨ li = DDS.loadInfoDXT3 ∨ li = DDS.loadInfoDXT5 ∨
    li = DDS.loadInfoATI1 ∨ li = DDS.loadInfoATI2 := by
  unfold DDS.classify at h
  split_ifs at h
  · exact Or.inl (Option.some_injective _ h).symm
  · exact Or.inr (Or.inl (Option.some_injective _ h).symm)
  · exact Or.inr (Or.inr (Or.inl (Option.some_injective _ h).symm))
  · exact Or.inr (Or.inr (Or.inr (Or.inl (Option.some_injective _ h).symm)))
  · exact Or.inr (Or.inr (Or.inr (Or.inr (Option.some_injective _ h).symm)))
  · obtain rfl := Option.some_injective _ h; exact absurd hc (by decide)
  · obtain rfl := Option.some_injective _ h; exact absurd hc (by decide)
  · obtain rfl := Option.some_injective _ h; exact absurd hc (by decide)
  · obtain rfl := Option.some_injective _ h; exact absurd hc (by decide)
  · obtain rfl := Option.some_injective _ h; exact absurd hc (by decide)

/-- Single-mip 4x4 DXT1 container with correct linear size 8. -/
def hdrDXT1 : DDS.Header :=
  { dwMagic := DDS.DDS_MAGIC, dwSize := 124,
    dwFlags := DDS.DDSD_CAPS ||| DDS.DDSD_HEIGHT ||| DDS.DDSD_WIDTH ||| DDS.DDSD_LINEARSIZE |||
               DDS.DDSD_PIXELFORMAT,
    dwHeight := 4, dwWidth := 4, dwPitchOrLinearSize := 8, dwDepth := 0, dwMipMapCount := 0,
    pixelFormat := { dwSize := 32, dwFlags := DDS.DDPF_FOURCC, dwFourCC := DDS.D3DFMT_DXT1,
                     dwRGBBitCount := 0, dwRBitMask := 0, dwGBitMask := 0, dwBBitMask := 0,
                     dwAlphaBitMask := 0 },
    caps2 := { dwCaps1 := DDS.DDSCAPS_TEXTURE, dwCaps2 := 0, dwDDSX := 0, dwReserved := 0 } }

/-- Single-mip 4x4 ATI1 container with linear size 16, the value the code
computes for it once the SRGB flag maps ATI1 to internal format 0. -/
def hdrATI1srgb : DDS.Header :=
  { dwMagic := DDS.DDS_MAGIC, dwSize := 124,
    dwFlags := DDS.DDSD_CAPS ||| DDS.DDSD_HEIGHT ||| DDS.DDSD_WIDTH ||| DDS.DDSD_LINEARSIZE |||
               DDS.DDSD_PIXELFORMAT,
    dwHeight := 4, dwWidth := 4, dwPitchOrLinearSize := 16, dwDepth := 0, dwMipMapCount := 0,
    pixelFormat := { dwSize := 32, dwFlags := DDS.DDPF_FOURCC, dwFourCC := DDS.D3DFMT_ATI1,
                     dwRGBBitCount := 0, dwRBitMask := 0, dwGBitMask := 0, dwBBitMask := 0,
                     dwAlphaBitMask := 0 },
    caps2 := { dwCaps1 := DDS.DDSCAPS_TEXTURE, dwCaps2 := 0, dwDDSX := 0, dwReserved := 0 } }

/-- Single-mip 131072 x 131072 DXT1 container whose 32-bit level size
wraps to 0, with linear size 0 to match. -/
def hdrBigDXT1 : DDS.Header :=
  { dwMagic := DDS.DDS_MAGIC, dwSize := 124,
    dwFlags := DDS.DDSD_CAPS ||| DDS.DDSD_HEIGHT ||| DDS.DDSD_WIDTH ||| DDS.DDSD_LINEARSIZE |||
               DDS.DDSD_PIXELFORMAT,
    dwHeight := 131072, dwWidth := 131072, dwPitchOrLinearSize := 0, dwDepth := 0,
    dwMipMapCount := 0,
    pixelFormat := { dwSize := 32, dwFlags := DDS.DDPF_FOURCC, dwFourCC := DDS.D3DFMT_DXT1,
                     dwRGBBitCount := 0, dwRBitMask := 0, dwGBitMask := 0, dwBBitMask := 0,
                     dwAlphaBitMask := 0 },
    caps2 := { dwCaps1 := DDS.DDSCAPS_TEXTURE, dwCaps2 := 0, dwDDSX := 0, dwReserved := 0 } }

/-- C3 counterexample: two containers accepted by loadTexture whose single
compressed upload does not have the byte count the claim formula gives.
First, an ATI1 container loaded with the SRGB flag: the resolved internal
format is the ATI1 sRGB slot GL_ZERO, which the size rule charges 16
bytes per block instead of the 8 the claim assigns to ATI1, so a 4x4
single-mip file with linear size 16 is accepted and uploads 16 bytes, not
((4+3)/4)*((4+3)/4)*8 = 8.  Second, a 131072 x 131072 DXT1 container: the
code computes the size in 32-bit arithmetic, so the level size wraps to 0
and a file with linear size 0 is accepted and uploads 0 bytes, not the
2^33 of the claim formula. -/
theorem loadTexture_mip_size_counterexample :
    (loadTexture hdrATI1srgb TextureFlags_SRGB 1).ok = true ∧
    uploadSizes (loadTexture hdrATI1srgb TextureFlags_SRGB 1).events = [16] ∧
    ((4 + 3) / 4) * ((4 + 3) / 4) * 8 = 8 ∧ (16 : Nat) ≠ 8 ∧
    (loadTexture hdrBigDXT1 0 1).ok = true ∧
    uploadSizes (loadTexture hdrBigDXT1 0 1).events = [0] ∧
    ((131072 + 3) / 4) * ((131072 + 3) / 4) * 8 = 8589934592 ∧ (0 : Nat) ≠ 8589934592 := by
  decide

/-- C3 (amended): for every compressed container accepted by loadTexture,
each side uploads one mip chain whose level byte counts follow the
formula ((w+3)/4) * ((h+3)/4) * blockBytes in 32-bit unsigned arithmetic
with the dimensions halved (floor, clamped at 1) between levels, where
blockBytes is 8 for the DXT1 variants and for ATI1 without the SRGB flag
and 16 otherwise; the payload reads are exactly the upload sizes after
the 128-byte header read; and without the SRGB flag blockBytes agrees
with the classified format table entry. -/
theorem loadTexture_compressed_mip_sizes (hdr : DDS.Header) (flags gen : Nat)
    (li : DDS.LoadInfo)
    (hcls : DDS.classify hdr.pixelFormat = some li)
    (hcomp : li.compressed = true)
    (hok : (loadTexture hdr flags gen).ok = true) :
    uploadSizes (loadTexture hdr flags gen).events
      = List.flatten (List.replicate (sidesOf hdr)
          (claimMipChain (claimBlockBytes (resolvedFormat li flags)) (mipsOf hdr)
            hdr.dwWidth hdr.dwHeight)) ∧
    payloadReadSizes (loadTexture hdr flags gen).events
      = 128 :: List.flatten (List.replicate (sidesOf hdr)
          (claimMipChain (claimBlockBytes (resolvedFormat li flags)) (mipsOf hdr)
            hdr.dwWidth hdr.dwHeight)) ∧
    (flags &&& TextureFlags_SRGB = 0 →
      claimBlockBytes (resolvedFormat li flags) = li.blockBytes) := by
  obtain ⟨li', hcls', hsides, hevs⟩ := loadTexture_ok_shape hdr flags gen hok
  rw [hcls] at hcls'
  injection hcls' with e
  subst e
  obtain ⟨hu, hp⟩ := loadSides_compressed_sizes hdr li (resolvedFormat li flags)
    (cubemapOf hdr) (mipsOf hdr) gen hcomp (sidesOf hdr) 0 hsides
  refine ⟨?_, ?_, ?_⟩
  · rw [hevs]
    simp only [uploadSizes, List.filterMap_cons] at hu ⊢
    exact hu
  · rw [hevs]
    simp only [payloadReadSizes, List.filterMap_cons] at hp ⊢
    rw [hp]
  · intro h0
    rcases classify_compressed hcls hcomp with e | e | e | e | e <;>
      subst e <;> simp [resolvedFormat, h0, claimBlockBytes] <;> decide

/-- Witness for the amended C3 theorem: a single-mip 4x4 DXT1 container
uploads exactly one level of ((4+3)/4)*((4+3)/4)*8 = 8 bytes. -/
theorem loadTexture_compressed_mip_sizes_witness :
    uploadSizes (loadTexture hdrDXT1 0 1).events
      = List.flatten (List.replicate (sidesOf hdrDXT1)
          (claimMipChain (claimBlockBytes (resolvedFormat DDS.loadInfoDXT1 0)) (mipsOf hdrDXT1)
            hdrDXT1.dwWidth hdrDXT1.dwHeight)) ∧
    payloadReadSizes (loadTexture hdrDXT1 0 1).events
      = 128 :: List.flatten (List.replicate (sidesOf hdrDXT1)
          (claimMipChain (claimBlockBytes (resolvedFormat DDS.loadInfoDXT1 0)) (mipsOf hdrDXT1)
            hdrDXT1.dwWidth hdrDXT1.dwHeight)) ∧
    ((0 : Nat) &&& TextureFlags_SRGB = 0 →
      claimBlockBytes (resolvedFormat DDS.loadInfoDXT1 0) = DDS.loadInfoDXT1.blockBytes) :=
  loadTexture_compressed_mip_sizes hdrDXT1 0 1 DDS.loadInfoDXT1 (by decide) (by decide) (by decide)

/-! ### Device state, uniforms and programs -/

/-- Uniform type enum from ffr.h, with the constructors the code
matches on. -/
inductive UniformType where
  | INT
  | FLOAT
  | VEC2
  | VEC3
  | VEC4
  | MAT4
  | MAT4X3
  | MAT3X4
deriving DecidableEq, Repr

/-- Embedding of getSize(UniformType) (ffr.cpp lines 1278-1294). -/
def getSize : UniformType → Nat
  | UniformType.INT => 4
  | UniformType.FLOAT => 4
  | UniformType.VEC2 => 8
  | UniformType.VEC3 => 12
  | UniformType.VEC4 => 16
  | UniformType.MAT4 => 64
  | UniformType.MAT4X3 => 48
  | UniformType.MAT3X4 => 48

/-- One uniform slot: semantic type, element count, and the byte size of
the zero-filled backing allocation the slot owns (the data pointer of the
C struct Uniform). -/
structure UniformObj where
  type : UniformType
  count : Nat
  dataBytes : Nat
deriving DecidableEq, Repr

/-- One (location, uniform slot) pair recorded on a program. -/
structure ProgUniform where
  loc : Int
  uniform : Nat
deriving DecidableEq, Repr

/-- One program slot: native handle plus the recorded uniform pairs. -/
structure ProgramObj where
  handle : Nat
  uniforms : List ProgUniform
deriving DecidableEq, Repr

/-- The parts of the g_ffr singleton touched by the modelled entry
points: the program and uniform pools, the slot contents, and the
name-hash to slot map backing uniform de-duplication. -/
structure DeviceState where
  programsPool : PoolState
  programObjs : List ProgramObj
  uniformsPool : PoolState
  uniformObjs : List UniformObj
  uniformsMap : List (Nat × Nat)
deriving DecidableEq, Repr

def INVALID_PROGRAM : Nat := INVALID_HANDLE
def INVALID_UNIFORM : Nat := INVALID_HANDLE

def GL_BLEND : Nat := 0x0BE2
def GL_SRC_ALPHA : Nat := 0x0302
def GL_ONE_MINUS_SRC_ALPHA : Nat := 0x0303
def GL_TRIANGLES : Nat := 0x0004
def GL_TRIANGLE_STRIP : Nat := 0x0005
def GL_LINES : Nat := 0x0001
def GL_FRAGMENT_SHADER : Nat := 0x8B30
def GL_VERTEX_SHADER : Nat := 0x8B31
def GL_COMPILE_STATUS : Nat := 0x8B81
def GL_LINK_STATUS : Nat := 0x8B82
def GL_INFO_LOG_LENGTH : Nat := 0x8B84
def GL_ACTIVE_UNIFORMS : Nat := 0x8B86
def GL_SAMPLER_2D : Nat := 0x8B5E
def GL_SAMPLER_CUBE : Nat := 0x8B60
def GL_INT : Nat := 0x1404
def GL_FLOAT : Nat := 0x1406
def GL_FLOAT_VEC2 : Nat := 0x8B50
def GL_FLOAT_VEC3 : Nat := 0x8B51
def GL_FLOAT_VEC4 : Nat := 0x8B52
def GL_FLOAT_MAT4 : Nat := 0x8B5C
def GL_FLOAT_MAT4x3 : Nat := 0x8B6A
def GL_FLOAT_MAT3x4 : Nat := 0x8B68

/-! ### useProgram (ffr.cpp lines 730-768) -/

/-- The per-uniform native upload issued by useProgram, selected by the
semantic type of the slot. -/
def uniformUploadEvent (loc : Int) (u : UniformObj) : Event :=
  match u.type with
  | UniformType.MAT4 => Event.glCall (GLCall.uniformMatrix4fv loc u.count)
  | UniformType.MAT4X3 => Event.glCall (GLCall.uniformMatrix4x3fv loc u.count)
  | UniformType.MAT3X4 => Event.glCall (GLCall.uniformMatrix3x4fv loc u.count)
  | UniformType.VEC4 => Event.glCall (GLCall.uniform4fv loc u.count)
  | UniformType.VEC3 => Event.glCall (GLCall.uniform3fv loc u.count)
  | UniformType.VEC2 => Event.glCall (GLCall.uniform2fv loc u.count)
  | UniformType.FLOAT => Event.glCall (GLCall.uniform1fv loc u.count)
  | UniformType.INT => Event.glCall (GLCall.uniform1i loc)

/-- Embedding of useProgram.  The handle validity test isValid() is
declared in ffr.h (not in the sources); modelled from the spec as
comparison against the invalid sentinel.  The C function only issues GL
calls and never writes the device state, so the model returns the event
trace. -/
def useProgram (s : DeviceState) (handle : Nat) : List Event :=
  if handle == INVALID_PROGRAM then []
  else
    let prg := s.programObjs.getD handle ⟨0, []⟩
    Event.glCall (GLCall.useProgram prg.handle) ::
      prg.uniforms.map (fun pu =>
        uniformUploadEvent pu.loc (s.uniformObjs.getD pu.uniform ⟨UniformType.INT, 0, 0⟩))

/-! ### Simple command-surface entry points -/

inductive PrimitiveType where
  | TRIANGLES
  | TRIANGLE_STRIP
  | LINES
deriving DecidableEq, Repr

def primitiveTypeGL : PrimitiveType → Nat
  | PrimitiveType.TRIANGLES => GL_TRIANGLES
  | PrimitiveType.TRIANGLE_STRIP => GL_TRIANGLE_STRIP
  | PrimitiveType.LINES => GL_LINES

/-- Embedding of viewport (ffr.cpp lines 676-680). -/
def viewport (x y w h : Nat) : List Event :=
  [Event.checkThread, Event.glCall (GLCall.viewport x y w h)]

/-- Embedding of scissor (ffr.cpp lines 696-700). -/
def scissor (x y w h : Nat) : List Event :=
  [Event.checkThread, Event.glCall (GLCall.scissor x y w h)]

/-- Embedding of blending (ffr.cpp lines 683-693). -/
def blending (mode : Int) : List Event :=
  Event.checkThread ::
  ((if mode ≠ 0 then [Event.glCall (GLCall.enable GL_BLEND)]
    else [Event.glCall (GLCall.disable GL_BLEND)]) ++
   [Event.glCall (GLCall.blendFunc GL_SRC_ALPHA GL_ONE_MINUS_SRC_ALPHA)])

/-- Embedding of drawArrays (ffr.cpp lines 884-897). -/
def drawArrays (offset count : Nat) (t : PrimitiveType) : List Event :=
  [Event.checkThread, Event.glCall (GLCall.drawArrays (primitiveTypeGL t) offset count)]

/-- Embedding of drawElements (ffr.cpp lines 861-874). -/
def drawElements (offset count : Nat) (t : PrimitiveType) : List Event :=
  [Event.checkThread,
   Event.glCall (GLCall.drawElements (primitiveTypeGL t) count GL_UNSIGNED_SHORT
     (u32 (offset * 2)))]

/-- Embedding of drawTriangles (ffr.cpp lines 877-881). -/
def drawTriangles (indices_count : Nat) : List Event :=
  [Event.checkThread,
   Event.glCall (GLCall.drawElements GL_TRIANGLES indices_count GL_UNSIGNED_SHORT 0)]

/-! ### allocUniform (ffr.cpp lines 1297-1324) -/

/-- Lookup in the name-hash map, modelling HashMap find. -/
def mapFind (m : List (Nat × Nat)) (k : Nat) : Option Nat :=
  (m.find? (fun p => p.1 == k)).map (fun p => p.2)

/-- Embedding of allocUniform.  The crc32 hash (engine/crc32.h, not in
the sources) is passed as a parameter: the code only relies on equal
names hashing equally, which holds for every function.  On a hit the
existing slot is returned with no state change; on a miss a slot is
popped from the pool, its type, count and zero-filled backing size are
recorded, and the hash is registered. -/
def allocUniform (crc32 : String → Nat) (s : DeviceState) (name : String)
    (type : UniformType) (count : Nat) : Nat × DeviceState :=
  let name_hash := crc32 name
  match mapFind s.uniformsMap name_hash with
  | some id => (id, s)
  | none =>
    if Pool.isFull s.uniformsPool then (INVALID_UNIFORM, s)
    else
      let p := Pool.alloc s.uniformsPool
      let id := p.1.toNat
      (id, { s with
             uniformsPool := p.2,
             uniformObjs := s.uniformObjs.set id ⟨type, count, getSize type * count⟩,
             uniformsMap := (name_hash, id) :: s.uniformsMap })

/-! ### createProgram (ffr.cpp lines 1327-1444) -/

inductive ShaderType where
  | VERTEX
  | FRAGMENT
deriving DecidableEq, Repr

def shaderTypeGL : ShaderType → Nat
  | ShaderType.FRAGMENT => GL_FRAGMENT_SHADER
  | ShaderType.VERTEX => GL_VERTEX_SHADER

structure CompileResult where
  ok : Bool
  logLen : Nat
deriving DecidableEq, Repr

structure ActiveUniform where
  name : String
  glType : Nat
  size : Nat
deriving DecidableEq, Repr

/-- Environment supplying the native results consumed by createProgram:
the glCreateProgram id, the glCreateShader id per stage, the per-stage
compile outcome and info-log length, the link outcome, and the active
uniform reflection data of the linked program. -/
structure ProgEnv where
  prg : Nat
  shd : Nat → Nat
  compile : Nat → CompileResult
  link : CompileResult
  activeUniformsCount : Nat
  activeUniform : Nat → ActiveUniform
  uniformLoc : String → Int

/-- The native-type to semantic-type mapping of the reflection loop
(ffr.cpp lines 1419-1431); the default branch asserts and falls back to
VEC4. -/
def glTypeToUniformType (t : Nat) : UniformType :=
  if t == GL_SAMPLER_CUBE || t == GL_SAMPLER_2D || t == GL_INT then UniformType.INT
  else if t == GL_FLOAT then UniformType.FLOAT
  else if t == GL_FLOAT_VEC2 then UniformType.VEC2
  else if t == GL_FLOAT_VEC3 then UniformType.VEC3
  else if t == GL_FLOAT_VEC4 then UniformType.VEC4
  else if t == GL_FLOAT_MAT4 then UniformType.MAT4
  else if t == GL_FLOAT_MAT4x3 then UniformType.MAT4X3
  else if t == GL_FLOAT_MAT3x4 then UniformType.MAT3X4
  else UniformType.VEC4

/-- The per-stage compile loop (ffr.cpp lines 1346-1382), processing the
stage list with absolute index i.  On a compile failure: query the log
length, surface the diagnostic when one is available (else a generic
line), delete the shader and stop with failure.  On success: attach,
delete (deferred by GL) and continue.  The native link call is never
issued from this loop. -/
def compileStages (env : ProgEnv) (prg prefs_count : Nat) :
    List ShaderType → Nat → Bool × List Event
  | [], _ => (true, [])
  | t :: rest, i =>
    let shd := env.shd i
    let evs := [Event.glCall (GLCall.createShader (shaderTypeGL t)),
                Event.glCall (GLCall.shaderSource shd (1 + prefs_count)),
                Event.glCall (GLCall.compileShader shd),
                Event.glCall (GLCall.getShaderiv shd GL_COMPILE_STATUS)]
    if (env.compile i).ok then
      let r := compileStages env prg prefs_count rest (i + 1)
      (r.1, evs ++ Event.glCall (GLCall.attachShader prg shd) ::
                   Event.glCall (GLCall.deleteShader shd) :: r.2)
    else
      (false,
       evs ++ Event.glCall (GLCall.getShaderiv shd GL_INFO_LOG_LENGTH) ::
         ((if (env.compile i).logLen > 0 then
             [Event.glCall (GLCall.getShaderInfoLog shd),
              Event.logError "compile diagnostic"]
           else [Event.logError "Failed to compile shader"]) ++
          [Event.glCall (GLCall.deleteShader shd)]))

/-- The reflection loop over active uniforms (ffr.cpp lines 1413-1441):
query each uniform, map its native type, resolve its location, and when
the location is nonnegative obtain a shared slot through allocUniform and
record the pair; negative locations are skipped. -/
def reflectUniforms (crc32 : String → Nat) (env : ProgEnv) :
    Nat → Nat → DeviceState → DeviceState × List ProgUniform × List Event
  | 0, _, s => (s, [], [])
  | n + 1, i, s =>
    let au := env.activeUniform i
    let ffr_type := glTypeToUniformType au.glType
    let loc := env.uniformLoc au.name
    if loc ≥ 0 then
      let r := allocUniform crc32 s au.name ffr_type au.size
      let rest := reflectUniforms crc32 env n (i + 1) r.2
      (rest.1, ⟨loc, r.1⟩ :: rest.2.1,
       Event.glCall (GLCall.getActiveUniform env.prg i) ::
       Event.glCall (GLCall.getUniformLocation env.prg) :: rest.2.2)
    else
      let rest := reflectUniforms crc32 env n (i + 1) s
      (rest.1, rest.2.1,
       Event.glCall (GLCall.getActiveUniform env.prg i) ::
       Event.glCall (GLCall.getUniformLocation env.prg) :: rest.2.2)

/-- Success path of createProgram: pop a program slot, reflect the active
uniforms (bounded at 32, with a warning when some are dropped) and write
the program record. -/
def createProgramSuccess (crc32 : String → Nat) (env : ProgEnv) (s : DeviceState)
    (types : List ShaderType) (prefs_count : Nat) : Nat × DeviceState × List Event :=
  let p := Pool.alloc s.programsPool
  let id := p.1.toNat
  let cnt := min env.activeUniformsCount 32
  let warn := if env.activeUniformsCount > 32 then
      [Event.logError "Too many uniforms per program, not all will be used."] else []
  let r := reflectUniforms crc32 env cnt 0 { s with programsPool := p.2 }
  (id,
   { r.1 with programObjs := r.1.programObjs.set id ⟨env.prg, r.2.1⟩ },
   Event.checkThread :: Event.glCall GLCall.createProgram ::
     ((compileStages env env.prg prefs_count types 0).2 ++
      Event.glCall (GLCall.linkProgram env.prg) ::
      Event.glCall (GLCall.getProgramiv env.prg GL_LINK_STATUS) ::
      Event.glCall (GLCall.getProgramiv env.prg GL_ACTIVE_UNIFORMS) :: (warn ++ r.2.2)))

/-- Embedding of createProgram: pool-capacity and stage-count guards,
then the compile loop; only when every stage compiled does the link call
happen, and only when the link succeeded is a slot allocated and
reflection run. -/
def createProgram (crc32 : String → Nat) (env : ProgEnv) (s : DeviceState)
    (types : List ShaderType) (prefs_count : Nat) : Nat × DeviceState × List Event :=
  if Pool.isFull s.programsPool then
    (INVALID_PROGRAM, s,
     [Event.checkThread, Event.logError "FFR is out of free program slots."])
  else if types.length > 16 then
    (INVALID_PROGRAM, s,
     [Event.checkThread, Event.logError "Too many shaders per program"])
  else if (compileStages env env.prg prefs_count types 0).1 = false then
    (INVALID_PROGRAM, s,
     Event.checkThread :: Event.glCall GLCall.createProgram ::
       (compileStages env env.prg prefs_count types 0).2)
  else if env.link.ok = false then
    (INVALID_PROGRAM, s,
     Event.checkThread :: Event.glCall GLCall.createProgram ::
       ((compileStages env env.prg prefs_count types 0).2 ++
        Event.glCall (GLCall.linkProgram env.prg) ::
        Event.glCall (GLCall.getProgramiv env.prg GL_LINK_STATUS) ::
        Event.glCall (GLCall.getProgramiv env.prg GL_INFO_LOG_LENGTH) ::
        ((if env.link.logLen > 0 then
            [Event.glCall (GLCall.getProgramInfoLog env.prg),
             Event.logError "link diagnostic"]
          else [Event.logError "Failed to link program"]) ++
         [Event.glCall (GLCall.deleteProgram env.prg)])))
  else
    createProgramSuccess crc32 env s types prefs_count

/-! ### Theorems about useProgram, allocUniform and createProgram -/

/-- C9: useProgram with the invalid program handle is a complete no-op:
the event trace is empty, so no native program is bound and no uniform is
uploaded; the C function writes no device state on any path, so the state
is unchanged as well. -/
theorem useProgram_invalid_noop (s : DeviceState) :
    useProgram s INVALID_PROGRAM = [] := by
  simp [useProgram]

theorem uniformUploadEvent_isGL (loc : Int) (u : UniformObj) :
    (uniformUploadEvent loc u).isGL = true := by
  cases u with
  | mk t c b => cases t <;> rfl

/-- The useProgram trace never contains the thread assertion. -/
theorem useProgram_no_checkThread (s : DeviceState) (handle : Nat) :
    Event.checkThread ∉ useProgram s handle := by
  unfold useProgram
  split
  · simp
  · intro hmem
    have hgl : Event.checkThread.isGL = true := by
      rcases List.mem_cons.mp hmem with e | e
      · rw [e]
        rfl
      · obtain ⟨pu, _, he⟩ := List.mem_map.mp e
        rw [← he]
        exact uniformUploadEvent_isGL _ _
    exact absurd hgl (by decide)

/-- A device state holding one program in slot 0 with native handle 7
and no uniforms. -/
def progDevState : DeviceState :=
  { programsPool := Pool.create 4,
    programObjs := [⟨7, []⟩],
    uniformsPool := Pool.create 4,
    uniformObjs := [],
    uniformsMap := [] }

/-- A native GL call occurs in the trace before any thread assertion. -/
def nativeBeforeCheck : List Event → Bool
  | [] => false
  | Event.checkThread :: _ => false
  | Event.glCall _ :: _ => true
  | _ :: rest => nativeBeforeCheck rest

/-- C4 counterexample: useProgram on a valid handle issues the native
glUseProgram call with no thread assertion anywhere in its trace, so not
every Command Surface entry point begins by asserting the device
thread. -/
theorem useProgram_no_thread_check :
    useProgram progDevState 0 = [Event.glCall (GLCall.useProgram 7)] ∧
    Event.checkThread ∉ useProgram progDevState 0 ∧
    nativeBeforeCheck (useProgram progDevState 0) = true := by
  refine ⟨by decide, by decide, by decide⟩

/-- C4 (amended): the modelled entry points viewport, scissor, blending,
drawArrays, drawElements, drawTriangles, loadTexture and createProgram
all begin with the thread assertion before any native call, but
useProgram (as well as bindTexture, setVertexBuffer, setState and
setIndexBuffer in the source) issues native calls without any thread
assertion. -/
theorem thread_check_amended :
    (∀ x y w h, (viewport x y w h).head? = some Event.checkThread) ∧
    (∀ x y w h, (scissor x y w h).head? = some Event.checkThread) ∧
    (∀ m, (blending m).head? = some Event.checkThread) ∧
    (∀ o c t, (drawArrays o c t).head? = some Event.checkThread) ∧
    (∀ o c t, (drawElements o c t).head? = some Event.checkThread) ∧
    (∀ n, (drawTriangles n).head? = some Event.checkThread) ∧
    (∀ hdr flags gen, ((loadTexture hdr flags gen).events).head? = some Event.checkThread) ∧
    (∀ crc32 env s types pcnt,
      ((createProgram crc32 env s types pcnt).2.2).head? = some Event.checkThread) ∧
    (∀ s handle, Event.checkThread ∉ useProgram s handle) := by
  refine ⟨fun x y w h => rfl, fun x y w h => rfl, fun m => rfl, fun o c t => rfl,
          fun o c t => rfl, fun n => rfl, ?_, ?_, useProgram_no_checkThread⟩
  · intro hdr flags gen
    unfold loadTexture
    split
    · rfl
    · split
      · rfl
      · split
        · rfl
        · rfl
  · intro crc32 env s types pcnt
    unfold createProgram
    split
    · rfl
    · split
      · rfl
      · split
        · rfl
        · split
          · rfl
          · rfl

/-- C6: a second allocUniform call with the same name returns the same
slot as the first and leaves the state unchanged, whatever type and count
the second call declares; the slot keeps the type, count and backing size
of the first declaration, so writes through either returned slot alias
the same backing storage.  The hash function is arbitrary: only equal
names hashing equally is used. -/
theorem allocUniform_same_name_aliases
    (crc32 : String → Nat) (s : DeviceState) (name : String)
    (t t' : UniformType) (c c' : Nat) (id : Nat) (s₁ : DeviceState)
    (hmiss : mapFind s.uniformsMap (crc32 name) = none)
    (hfull : Pool.isFull s.uniformsPool = false)
    (hlen : s.uniformsPool.first_free.toNat < s.uniformObjs.length)
    (hfirst : allocUniform crc32 s name t c = (id, s₁)) :
    allocUniform crc32 s₁ name t' c' = (id, s₁) ∧
    s₁.uniformObjs.getD id ⟨UniformType.INT, 0, 0⟩
      = ⟨t, c, getSize t * c⟩ := by
  have hff : ¬(s.uniformsPool.first_free = -1) := by
    simpa [Pool.isFull] using hfull
  have halloc : Pool.alloc s.uniformsPool
      = (s.uniformsPool.first_free,
         { values := s.uniformsPool.values,
           first_free := s.uniformsPool.values.getD s.uniformsPool.first_free.toNat (-1) }) := by
    simp [Pool.alloc, hff]
  unfold allocUniform at hfirst
  simp only [hmiss] at hfirst
  rw [if_neg (by simp [hfull])] at hfirst
  simp only [halloc] at hfirst
  obtain ⟨rfl, rfl⟩ := Prod.mk.inj hfirst
  constructor
  · unfold allocUniform
    have hfind : mapFind ((crc32 name, s.uniformsPool.first_free.toNat) :: s.uniformsMap)
        (crc32 name) = some s.uniformsPool.first_free.toNat := by
      simp [mapFind]
    simp only [hfind]
  · exact getD_set_self hlen

/-- Initial device state for the C6 witness: two empty uniform slots. -/
def uState0 : DeviceState :=
  { programsPool := Pool.create 2,
    programObjs := [],
    uniformsPool := Pool.create 2,
    uniformObjs := [⟨UniformType.INT, 0, 0⟩, ⟨UniformType.INT, 0, 0⟩],
    uniformsMap := [] }

/-- Witness for C6: the first call declares VEC4 x3, the second INT x1
with the same name; the second returns the same slot 0 and the slot keeps
VEC4 x3 with 48 backing bytes. -/
theorem allocUniform_same_name_aliases_witness :
    allocUniform (fun _ => 42) ((allocUniform (fun _ => 42) uState0 "u" UniformType.VEC4 3).2)
        "u" UniformType.INT 1
      = (0, (allocUniform (fun _ => 42) uState0 "u" UniformType.VEC4 3).2) ∧
    ((allocUniform (fun _ => 42) uState0 "u" UniformType.VEC4 3).2).uniformObjs.getD 0
        ⟨UniformType.INT, 0, 0⟩ = ⟨UniformType.VEC4, 3, getSize UniformType.VEC4 * 3⟩ :=
  allocUniform_same_name_aliases (fun _ => 42) uState0 "u" UniformType.VEC4 UniformType.INT 3 1 0
    ((allocUniform (fun _ => 42) uState0 "u" UniformType.VEC4 3).2)
    (by decide) (by decide) (by decide) (by decide)

/-- The event is the native link call. -/
def isLinkEvent : Event → Bool
  | Event.glCall (GLCall.linkProgram _) => true
  | _ => false

/-- The compile loop never issues the native link call. -/
theorem compileStages_no_link (env : ProgEnv) (prg pc : Nat) :
    ∀ (ts : List ShaderType) (i : Nat), ∀ e ∈ (compileStages env prg pc ts i).2,
      isLinkEvent e = false := by
  intro ts
  induction ts with
  | nil =>
    intro i e hm
    simp [compileStages] at hm
  | cons t rest ih =>
    intro i e hm
    unfold compileStages at hm
    by_cases hc : (env.compile i).ok = true
    · rw [if_pos hc] at hm
      rcases List.mem_append.mp hm with hm | hm
      · fin_cases hm <;> rfl
      · rcases List.mem_cons.mp hm with rfl | hm
        · rfl
        · rcases List.mem_cons.mp hm with rfl | hm
          · rfl
          · exact ih (i + 1) e hm
    · rw [if_neg hc] at hm
      rcases List.mem_append.mp hm with hm | hm
      · fin_cases hm <;> rfl
      · rcases List.mem_cons.mp hm with rfl | hm
        · rfl
        · rcases List.mem_append.mp hm with hm | hm
          · by_cases hl : (env.compile i).logLen > 0
            · rw [if_pos hl] at hm
              fin_cases hm <;> rfl
            · rw [if_neg hl] at hm
              fin_cases hm <;> rfl
          · fin_cases hm <;> rfl

/-- When the first compile failure is at absolute stage index i, the
compile loop started at index k reports failure, and emits the native
info-log query when a log is available. -/
theorem compileStages_fails (env : ProgEnv) (prg pc : Nat) :
    ∀ (ts : List ShaderType) (k i : Nat), k ≤ i → i - k < ts.length →
      (∀ j, k ≤ j → j < i → (env.compile j).ok = true) →
      (env.compile i).ok = false →
      (compileStages env prg pc ts k).1 = false ∧
      ((env.compile i).logLen > 0 →
        Event.glCall (GLCall.getShaderInfoLog (env.shd i)) ∈ (compileStages env prg pc ts k).2) := by
  intro ts
  induction ts with
  | nil =>
    intro k i hk hlen _ _
    simp at hlen
  | cons t rest ih =>
    intro k i hki hlen hok hfail
    unfold compileStages
    by_cases hc : (env.compile k).ok = true
    · have hkilt : k < i := by
        rcases Nat.lt_or_ge k i with h | h
        · exact h
        · have hki2 : k = i := by omega
          rw [hki2, hfail] at hc
          exact absurd hc (by simp)
      rw [if_pos hc]
      have hrec := ih (k + 1) i (by omega) (by simp at hlen; omega)
        (fun j hj1 hj2 => hok j (by omega) hj2) hfail
      refine ⟨hrec.1, ?_⟩
      intro hl
      have hm := hrec.2 hl
      simp only [List.mem_append, List.mem_cons]
      tauto
    · have hki2 : k = i := by
        by_contra hne
        exact hc (hok k (Nat.le_refl k) (by omega))
      subst hki2
      rw [if_neg hc]
      refine ⟨rfl, ?_⟩
      intro hl
      rw [if_pos hl]
      simp

/-- C8: when some stage fails to compile (all earlier stages compiling),
createProgram returns the invalid-program sentinel, leaves the device
state unchanged, never issues the native link call, and queries the
native compiler diagnostic when the info log is nonempty. -/
theorem createProgram_compile_failure
    (crc32 : String → Nat) (env : ProgEnv) (s : DeviceState)
    (types : List ShaderType) (pcnt i : Nat)
    (hfull : Pool.isFull s.programsPool = false)
    (hnum : types.length ≤ 16)
    (hi : i < types.length)
    (hfail : (env.compile i).ok = false)
    (hbefore : ∀ j, j < i → (env.compile j).ok = true) :
    (createProgram crc32 env s types pcnt).1 = INVALID_PROGRAM ∧
    (createProgram crc32 env s types pcnt).2.1 = s ∧
    (∀ e ∈ (createProgram crc32 env s types pcnt).2.2, isLinkEvent e = false) ∧
    ((env.compile i).logLen > 0 →
      Event.glCall (GLCall.getShaderInfoLog (env.shd i))
        ∈ (createProgram crc32 env s types pcnt).2.2) := by
  obtain ⟨hcs1, hcs2⟩ := compileStages_fails env env.prg pcnt types 0 i (Nat.zero_le i)
    (by omega) (fun j _ hj => hbefore j hj) hfail
  unfold createProgram
  rw [if_neg (by simp [hfull]), if_neg (by omega), if_pos hcs1]
  refine ⟨rfl, rfl, ?_, ?_⟩
  · intro e hm
    rcases List.mem_cons.mp hm with h | h
    · subst h; rfl
    · rcases List.mem_cons.mp h with h | h
      · subst h; rfl
      · exact compileStages_no_link env env.prg pcnt types 0 e h
  · intro hl
    exact List.mem_cons_of_mem _ (List.mem_cons_of_mem _ (hcs2 hl))

/-- Environment for the C8 witness: one vertex stage whose compile fails
with a five-byte log. -/
def failEnv : ProgEnv :=
  { prg := 9,
    shd := fun _ => 3,
    compile := fun _ => ⟨false, 5⟩,
    link := ⟨true, 0⟩,
    activeUniformsCount := 0,
    activeUniform := fun _ => ⟨"", 0, 0⟩,
    uniformLoc := fun _ => -1 }

/-- Witness for C8 with one failing vertex stage on a fresh state. -/
theorem createProgram_compile_failure_witness :
    (createProgram (fun _ => 0) failEnv uState0 [ShaderType.VERTEX] 0).1 = INVALID_PROGRAM ∧
    (createProgram (fun _ => 0) failEnv uState0 [ShaderType.VERTEX] 0).2.1 = uState0 ∧
    (∀ e ∈ (createProgram (fun _ => 0) failEnv uState0 [ShaderType.VERTEX] 0).2.2,
      isLinkEvent e = false) ∧
    ((failEnv.compile 0).logLen > 0 →
      Event.glCall (GLCall.getShaderInfoLog (failEnv.shd 0))
        ∈ (createProgram (fun _ => 0) failEnv uState0 [ShaderType.VERTEX] 0).2.2) :=
  createProgram_compile_failure (fun _ => 0) failEnv uState0 [ShaderType.VERTEX] 0 0
    (by decide) (by decide) (by decide) (by decide) (fun j hj => absurd hj (by omega))

end FfrSpec
